import Mathlib

/-!
Shallow embedding of the `LendingProtocol` contract
(src/proyectos/Examen Final/Kevin Galeano - Maria Jose Duarte/hardhat.config.ts,
Solidity portion) and proofs of its specified properties.

Amounts, balances and timestamps are modelled as `Nat` (the contract uses
uint256; no operation here can overflow 2^256 in any claim, and Solidity 0.8
reverts on underflow, which for the single subtraction `now - lastInterestUpdate`
is mirrored by stating theorems over the code paths where it cannot underflow,
with truncated subtraction elsewhere).  A `require` failure in Solidity reverts
the whole call, so each operation is a function returning
`Except LendingError LedgerState`; `runOp` realises the revert semantics by
keeping the pre-state on error.
-/

namespace LendingProtocol

/-- Constant 150 of the source (its collateralization percentage). -/
def COLLATERALIZATION_RATIO : Nat := 150

/-- Constant `INTEREST_RATE = 5` (5% weekly interest) from the source. -/
def INTEREST_RATE : Nat := 5

/-- Constant `PRECISION = 100` from the source. -/
def PRECISION : Nat := 100

/-- The accrual period, `7 * 24 * 60 * 60` seconds, inlined in the source. -/
def WEEK_SECONDS : Nat := 7 * 24 * 60 * 60

/-- The `UserPosition` struct of the source. -/
structure UserPosition where
  collateralAmount : Nat
  loanAmount : Nat
  lastInterestUpdate : Nat
  accumulatedInterest : Nat
  deriving DecidableEq, Repr

/-- The failure kinds of the operations. Each corresponds to one `require`
message in the source. -/
inductive LendingError where
  | invalidAmount
  | noCollateral
  | noActiveLoan
  | exceedsCapacity
  | insufficientReserve
  | activeDebt
  | transferFailed
  deriving DecidableEq, Repr

/-- The ledger state: the per-identity positions mapping of the contract,
the contract token balances (`loanReserve` is `loanToken.balanceOf(contract)`,
`collateralReserve` is `collateralToken.balanceOf(contract)`), and the
participants' own token balances, which the ERC20 transfers move. -/
structure LedgerState where
  positions : Nat → UserPosition
  loanReserve : Nat
  collateralReserve : Nat
  userLoan : Nat → Nat
  userCollateral : Nat → Nat

/-- The interest increment `loanAmount * INTEREST_RATE * weeksElapsed / PRECISION`
computed by both `_updateInterest` and `getUserData` in the source. -/
def newInterestFor (loanAmount weeksElapsed : Nat) : Nat :=
  loanAmount * INTEREST_RATE * weeksElapsed / PRECISION

/-- Function `_updateInterest` of the source, as a pure function of the position and
the current time: if there is an active loan and a set accrual clock and at
least one whole week elapsed, fold the new interest into
`accumulatedInterest` and reset the clock; otherwise leave the position
unchanged. -/
def updateInterest (p : UserPosition) (now : Nat) : UserPosition :=
  if p.loanAmount > 0 ∧ p.lastInterestUpdate > 0 then
    let weeksElapsed := (now - p.lastInterestUpdate) / WEEK_SECONDS
    if weeksElapsed > 0 then
      { p with
        accumulatedInterest := p.accumulatedInterest + newInterestFor p.loanAmount weeksElapsed
        lastInterestUpdate := now }
    else p
  else p

/-- Function `getUserData` of the source: a view function returning
`(collateral, debt, interest)` where `interest` adds the projected new
interest to the stored `accumulatedInterest` without mutating anything. -/
def getUserData (p : UserPosition) (now : Nat) : Nat × Nat × Nat :=
  if p.loanAmount > 0 ∧ p.lastInterestUpdate > 0 then
    let weeksElapsed := (now - p.lastInterestUpdate) / WEEK_SECONDS
    if weeksElapsed > 0 then
      (p.collateralAmount, p.loanAmount,
        p.accumulatedInterest + newInterestFor p.loanAmount weeksElapsed)
    else
      (p.collateralAmount, p.loanAmount, p.accumulatedInterest)
  else
    (p.collateralAmount, p.loanAmount, p.accumulatedInterest)

/-- Function `depositCollateral` of the source: requires a positive amount, then an
ERC20 `transferFrom` of the collateral token from the caller to the contract
(which fails if the caller balance is insufficient), then credits the
position. -/
def depositCollateral (s : LedgerState) (id amt : Nat) : Except LendingError LedgerState :=
  if amt = 0 then .error .invalidAmount
  else if s.userCollateral id < amt then .error .transferFailed
  else
    let pos := s.positions id
    .ok { s with
      positions := Function.update s.positions id
        { pos with collateralAmount := pos.collateralAmount + amt }
      collateralReserve := s.collateralReserve + amt
      userCollateral := Function.update s.userCollateral id (s.userCollateral id - amt) }

/-- Function `borrow` of the source: requires a positive amount and nonzero collateral,
updates interest, checks `currentDebt + amount <= maxBorrowable` with
`maxBorrowable = collateralAmount * PRECISION / COLLATERALIZATION_RATIO`,
checks the contract loan-token balance, then credits the loan, stamps the
accrual clock with `now`, and transfers the loan tokens to the caller. -/
def borrow (s : LedgerState) (id amt now : Nat) : Except LendingError LedgerState :=
  if amt = 0 then .error .invalidAmount
  else if (s.positions id).collateralAmount = 0 then .error .noCollateral
  else
    let pos := updateInterest (s.positions id) now
    let maxBorrowable := pos.collateralAmount * PRECISION / COLLATERALIZATION_RATIO
    let currentDebt := pos.loanAmount + pos.accumulatedInterest
    if maxBorrowable < currentDebt + amt then .error .exceedsCapacity
    else if s.loanReserve < amt then .error .insufficientReserve
    else
      .ok { s with
        positions := Function.update s.positions id
          { pos with loanAmount := pos.loanAmount + amt, lastInterestUpdate := now }
        loanReserve := s.loanReserve - amt
        userLoan := Function.update s.userLoan id (s.userLoan id + amt) }

/-- Function `repay` of the source: requires an active loan, updates interest, then an
ERC20 `transferFrom` of `totalDebt = loanAmount + accumulatedInterest` from
the caller to the contract (failing if the caller balance is insufficient),
then resets `loanAmount`, `accumulatedInterest` and `lastInterestUpdate`. -/
def repay (s : LedgerState) (id now : Nat) : Except LendingError LedgerState :=
  if (s.positions id).loanAmount = 0 then .error .noActiveLoan
  else
    let pos := updateInterest (s.positions id) now
    let totalDebt := pos.loanAmount + pos.accumulatedInterest
    if s.userLoan id < totalDebt then .error .transferFailed
    else
      .ok { s with
        positions := Function.update s.positions id
          { pos with loanAmount := 0, accumulatedInterest := 0, lastInterestUpdate := 0 }
        loanReserve := s.loanReserve + totalDebt
        userLoan := Function.update s.userLoan id (s.userLoan id - totalDebt) }

/-- Function `withdrawCollateral` of the source: requires nonzero collateral, updates
interest when a loan is active, requires `currentDebt == 0`, then zeroes the
collateral and transfers the whole of it back to the caller. -/
def withdrawCollateral (s : LedgerState) (id now : Nat) : Except LendingError LedgerState :=
  if (s.positions id).collateralAmount = 0 then .error .noCollateral
  else
    let pos0 := s.positions id
    let pos := if pos0.loanAmount > 0 then updateInterest pos0 now else pos0
    if pos.loanAmount + pos.accumulatedInterest ≠ 0 then .error .activeDebt
    else if s.collateralReserve < pos.collateralAmount then .error .transferFailed
    else
      .ok { s with
        positions := Function.update s.positions id { pos with collateralAmount := 0 }
        collateralReserve := s.collateralReserve - pos.collateralAmount
        userCollateral := Function.update s.userCollateral id
          (s.userCollateral id + pos.collateralAmount) }

/-- Function `fundContract` of the source: an ERC20 `transferFrom` of loan tokens from
the sender to the contract; no position is read or written. -/
def fundContract (s : LedgerState) (sender amt : Nat) : Except LendingError LedgerState :=
  if s.userLoan sender < amt then .error .transferFailed
  else
    .ok { s with
      loanReserve := s.loanReserve + amt
      userLoan := Function.update s.userLoan sender (s.userLoan sender - amt) }

/-- Function `withdrawExcess` of the source: an ERC20 `transfer` of loan tokens from
the contract to the sender, with no surplus check beyond the token balance
itself; no position is read or written. -/
def withdrawExcess (s : LedgerState) (sender amt : Nat) : Except LendingError LedgerState :=
  if s.loanReserve < amt then .error .transferFailed
  else
    .ok { s with
      loanReserve := s.loanReserve - amt
      userLoan := Function.update s.userLoan sender (s.userLoan sender + amt) }

/-- The four participant-facing mutating operations, as a syntax-free
operation type for stating trace properties. -/
inductive Op where
  | deposit (id amt : Nat)
  | borrow (id amt : Nat)
  | repay (id : Nat)
  | withdrawCollateral (id : Nat)

/-- Dispatch one operation at a given time. -/
def step (s : LedgerState) (op : Op) (now : Nat) : Except LendingError LedgerState :=
  match op with
  | .deposit id amt => depositCollateral s id amt
  | .borrow id amt => borrow s id amt now
  | .repay id => repay s id now
  | .withdrawCollateral id => withdrawCollateral s id now

/-- Revert semantics: a failed call leaves the chain state as it was. -/
def runOp (s : LedgerState) (op : Op) (now : Nat) : LedgerState :=
  match step s op now with
  | .ok t => t
  | .error _ => s

/-- The all-zero position a fresh mapping slot holds. -/
def zeroPosition : UserPosition :=
  { collateralAmount := 0, loanAmount := 0, lastInterestUpdate := 0, accumulatedInterest := 0 }

/-- States reachable from a genesis state whose every position is all-zero,
by any sequence of the four operations at non-decreasing times.  The second
index is the time of the latest applied operation. -/
inductive Reachable : LedgerState → Nat → Prop
  | init (r c : Nat) (ul uc : Nat → Nat) :
      Reachable ⟨fun _ => zeroPosition, r, c, ul, uc⟩ 0
  | next {s : LedgerState} {t : Nat} (op : Op) (now : Nat) :
      Reachable s t → t ≤ now → Reachable (runOp s op now) now

/-- The empty-debt invariant: a position with no principal has no accrued
interest and an unset accrual clock. -/
def PositionInv (s : LedgerState) : Prop :=
  ∀ id, (s.positions id).loanAmount = 0 →
    (s.positions id).accumulatedInterest = 0 ∧ (s.positions id).lastInterestUpdate = 0

/-! ### Claim C7: the read-only projection agrees with the mutating accrual -/

/-- C7: `getUserData` is a pure function of the stored position (so it mutates
no state by construction); it returns the stored `collateralAmount` and
`loanAmount` unchanged, and its interest figure is exactly the
`accumulatedInterest` that the state-mutating accrual path `updateInterest`
produces for the same position at the same time. -/
theorem c7_getUserData_agrees_with_updateInterest (p : UserPosition) (now : Nat) :
    getUserData p now =
      (p.collateralAmount, p.loanAmount, (updateInterest p now).accumulatedInterest) := by
  unfold getUserData updateInterest
  split
  · dsimp only
    split <;> rfl
  · rfl

/-! ### Claim C10: split accrual never charges more than one-shot accrual -/

/-- C10: for whole-period counts `k1, k2 ≥ 1`, accruing in two steps charges
`newInterestFor P k1 + newInterestFor P k2`, never more than the one-shot
charge `newInterestFor P (k1 + k2)` over the same whole periods; and for some
principal (30, whose `P * 5` is not divisible by 100) the split total is
strictly smaller, so the total accrued interest depends on when accrual is
triggered, not only on the elapsed whole periods. -/
theorem c10_split_accrual_le_single (P k1 k2 : Nat) (_h1 : 1 ≤ k1) (_h2 : 1 ≤ k2) :
    newInterestFor P k1 + newInterestFor P k2 ≤ newInterestFor P (k1 + k2) ∧
    newInterestFor 30 1 + newInterestFor 30 1 < newInterestFor 30 (1 + 1) := by
  constructor
  · unfold newInterestFor
    calc P * INTEREST_RATE * k1 / PRECISION + P * INTEREST_RATE * k2 / PRECISION
        ≤ (P * INTEREST_RATE * k1 + P * INTEREST_RATE * k2) / PRECISION :=
          Nat.add_div_le_add_div _ _ _
      _ = P * INTEREST_RATE * (k1 + k2) / PRECISION := by rw [Nat.mul_add]
  · decide

/-- Witness for C10 at `P = 7`, `k1 = 1`, `k2 = 2`. -/
theorem c10_split_accrual_le_single_witness :
    newInterestFor 7 1 + newInterestFor 7 2 ≤ newInterestFor 7 (1 + 2) ∧
    newInterestFor 30 1 + newInterestFor 30 1 < newInterestFor 30 (1 + 1) :=
  c10_split_accrual_le_single 7 1 2 (by decide) (by decide)

/-! ### Claim C2: the accrual rule (corrected) -/

/-- C2 counterexample: at the position with `loanAmount = 100`,
`lastInterestUpdate = 0` and `now = 604800` (one whole week elapsed), the
claim as stated demands interest of `newInterestFor 100 1 = 5` to accrue,
but `_updateInterest` also requires `lastInterestUpdate > 0` and returns the
position unchanged. -/
theorem c2_accrue_counterexample :
    (UserPosition.mk 0 100 0 0).loanAmount ≠ 0 ∧
    (604800 - (UserPosition.mk 0 100 0 0).lastInterestUpdate) / WEEK_SECONDS ≠ 0 ∧
    updateInterest (UserPosition.mk 0 100 0 0) 604800 = UserPosition.mk 0 100 0 0 ∧
    (updateInterest (UserPosition.mk 0 100 0 0) 604800).accumulatedInterest ≠
      (UserPosition.mk 0 100 0 0).accumulatedInterest +
        newInterestFor 100 ((604800 - (UserPosition.mk 0 100 0 0).lastInterestUpdate) / WEEK_SECONDS) := by
  refine ⟨by decide, by decide, by decide, by decide⟩

/-- C2 (amended): `accrue` returns the position unchanged when `principal = 0`
OR when `last_accrual_time` is unset (`= 0`), and unchanged when no whole
period elapsed; otherwise it adds exactly
`floor(principal * RATE_PERCENT * elapsed_periods / 100)` to the accrued
interest and stamps `last_accrual_time = now`, leaving collateral and
principal unchanged. -/
theorem c2_accrue_characterization (p : UserPosition) (now : Nat) :
    (p.loanAmount = 0 → updateInterest p now = p) ∧
    (p.lastInterestUpdate = 0 → updateInterest p now = p) ∧
    ((now - p.lastInterestUpdate) / WEEK_SECONDS = 0 → updateInterest p now = p) ∧
    (p.loanAmount ≠ 0 → p.lastInterestUpdate ≠ 0 →
      (now - p.lastInterestUpdate) / WEEK_SECONDS ≠ 0 →
      updateInterest p now =
        { p with
          accumulatedInterest := p.accumulatedInterest +
            newInterestFor p.loanAmount ((now - p.lastInterestUpdate) / WEEK_SECONDS)
          lastInterestUpdate := now }) := by
  refine ⟨?_, ?_, ?_, ?_⟩
  · intro h; simp [updateInterest, h]
  · intro h; simp [updateInterest, h]
  · intro h; simp [updateInterest, h]
  · intro h1 h2 h3
    simp [updateInterest, Nat.pos_of_ne_zero h1, Nat.pos_of_ne_zero h2, Nat.pos_of_ne_zero h3]

/-- Witness for C2 (amended) in the accruing case, at `loanAmount = 100`,
`lastInterestUpdate = 1`, `now = 604801`. -/
theorem c2_accrue_characterization_witness :
    updateInterest (UserPosition.mk 0 100 1 0) 604801 =
      { UserPosition.mk 0 100 1 0 with
        accumulatedInterest := (UserPosition.mk 0 100 1 0).accumulatedInterest +
          newInterestFor 100 ((604801 - 1) / WEEK_SECONDS)
        lastInterestUpdate := 604801 } :=
  (c2_accrue_characterization (UserPosition.mk 0 100 1 0) 604801).2.2.2
    (by decide) (by decide) (by decide)

/-! ### Claim C3: failure conditions and success effects of `borrow` -/

/-- C3: `borrow` fails exactly when, checked in this order, the amount is
zero (`invalidAmount`), the collateral is zero (`noCollateral`), the
post-accrual debt plus the amount exceeds
`floor(collateral * 100 / 150)` (`exceedsCapacity`), or the loan reserve is
below the amount (`insufficientReserve`); when none of these holds it
succeeds, decreasing the reserve by the amount, increasing the principal by
the amount, stamping `lastInterestUpdate = now`, and paying the amount out
to the participant. -/
theorem c3_borrow_error_order (s : LedgerState) (id amt now : Nat) :
    (amt = 0 → borrow s id amt now = .error .invalidAmount) ∧
    (amt ≠ 0 → (s.positions id).collateralAmount = 0 →
      borrow s id amt now = .error .noCollateral) ∧
    (amt ≠ 0 → (s.positions id).collateralAmount ≠ 0 →
      (updateInterest (s.positions id) now).collateralAmount * PRECISION / COLLATERALIZATION_RATIO <
        (updateInterest (s.positions id) now).loanAmount +
          (updateInterest (s.positions id) now).accumulatedInterest + amt →
      borrow s id amt now = .error .exceedsCapacity) ∧
    (amt ≠ 0 → (s.positions id).collateralAmount ≠ 0 →
      ¬ ((updateInterest (s.positions id) now).collateralAmount * PRECISION / COLLATERALIZATION_RATIO <
        (updateInterest (s.positions id) now).loanAmount +
          (updateInterest (s.positions id) now).accumulatedInterest + amt) →
      s.loanReserve < amt →
      borrow s id amt now = .error .insufficientReserve) ∧
    (amt ≠ 0 → (s.positions id).collateralAmount ≠ 0 →
      ¬ ((updateInterest (s.positions id) now).collateralAmount * PRECISION / COLLATERALIZATION_RATIO <
        (updateInterest (s.positions id) now).loanAmount +
          (updateInterest (s.positions id) now).accumulatedInterest + amt) →
      ¬ (s.loanReserve < amt) →
      borrow s id amt now = .ok
        { s with
          positions := Function.update s.positions id
            { updateInterest (s.positions id) now with
              loanAmount := (updateInterest (s.positions id) now).loanAmount + amt
              lastInterestUpdate := now }
          loanReserve := s.loanReserve - amt
          userLoan := Function.update s.userLoan id (s.userLoan id + amt) }) := by
  refine ⟨?_, ?_, ?_, ?_, ?_⟩
  · intro h; simp [borrow, h]
  · intro h1 h2; simp [borrow, h1, h2]
  · intro h1 h2 h3; simp [borrow, h1, h2, h3]
  · intro h1 h2 h3 h4; simp [borrow, h1, h2, h3, h4]
  · intro h1 h2 h3 h4; simp [borrow, h1, h2, h3, h4]

/-- A state for exercising `borrow`: one participant with 1500 collateral and
no loan, a loan reserve of 1000. -/
def borrowState : LedgerState :=
  { positions := fun _ => UserPosition.mk 1500 0 0 0
    loanReserve := 1000
    collateralReserve := 1500
    userLoan := fun _ => 0
    userCollateral := fun _ => 0 }

/-- Witness for C3 in the success case: borrowing 500 at time 0. -/
theorem c3_borrow_error_order_witness :
    borrow borrowState 0 500 0 = .ok
      { borrowState with
        positions := Function.update borrowState.positions 0
          { updateInterest (borrowState.positions 0) 0 with
            loanAmount := (updateInterest (borrowState.positions 0) 0).loanAmount + 500
            lastInterestUpdate := 0 }
        loanReserve := borrowState.loanReserve - 500
        userLoan := Function.update borrowState.userLoan 0 (borrowState.userLoan 0 + 500) } :=
  (c3_borrow_error_order borrowState 0 500 0).2.2.2.2
    (by decide) (by decide) (by decide) (by decide)

/-! ### Claim C1: successful borrow maintains the collateralization bound -/

/-- C1: immediately after any successful `borrow`, the borrower's post-accrual
post-borrow position satisfies
`loanAmount + accumulatedInterest ≤ floor(collateralAmount * 100 / 150)`. -/
theorem c1_borrow_maintains_collateralization (s : LedgerState) (id amt now : Nat)
    (s2 : LedgerState) (h : borrow s id amt now = .ok s2) :
    (s2.positions id).loanAmount + (s2.positions id).accumulatedInterest ≤
      (s2.positions id).collateralAmount * PRECISION / COLLATERALIZATION_RATIO := by
  unfold borrow at h
  dsimp only at h
  split at h
  · exact absurd h (by simp)
  · split at h
    · exact absurd h (by simp)
    · split at h
      · exact absurd h (by simp)
      · split at h
        · exact absurd h (by simp)
        · rename_i hcap hres
          injection h with h2
          subst h2
          simp only [Function.update_same]
          generalize (updateInterest (s.positions id) now).collateralAmount *
            PRECISION / COLLATERALIZATION_RATIO = M at hcap ⊢
          omega

/-- Witness for C1: the successful borrow of 1000 against 1500 collateral. -/
theorem c1_borrow_maintains_collateralization_witness :
    borrow borrowState 0 1000 0 = .ok
      { borrowState with
        positions := Function.update borrowState.positions 0 (UserPosition.mk 1500 1000 0 0)
        loanReserve := 0
        userLoan := Function.update borrowState.userLoan 0 1000 } ∧
    (((Function.update borrowState.positions 0 (UserPosition.mk 1500 1000 0 0)) 0).loanAmount +
        ((Function.update borrowState.positions 0 (UserPosition.mk 1500 1000 0 0)) 0).accumulatedInterest ≤
      ((Function.update borrowState.positions 0 (UserPosition.mk 1500 1000 0 0)) 0).collateralAmount *
        PRECISION / COLLATERALIZATION_RATIO) :=
  ⟨rfl, c1_borrow_maintains_collateralization borrowState 0 1000 0 _ rfl⟩

/-! ### Claim C4: `repay` settles the whole post-accrual debt and resets -/

/-- C4: `repay` on a position with no principal fails with `noActiveLoan`;
a successful `repay` moves exactly
`totalDebt = loanAmount + accumulatedInterest` (both post-accrual at `now`)
from the participant to the reserve, increases the loan reserve by
`totalDebt`, and leaves the position with zero principal, zero accrued
interest, an unset accrual clock, and unchanged collateral. -/
theorem c4_repay_spec (s : LedgerState) (id now : Nat) :
    ((s.positions id).loanAmount = 0 → repay s id now = .error .noActiveLoan) ∧
    (∀ s2, repay s id now = .ok s2 →
      s2.userLoan id +
          ((updateInterest (s.positions id) now).loanAmount +
            (updateInterest (s.positions id) now).accumulatedInterest) = s.userLoan id ∧
      s2.loanReserve = s.loanReserve +
          ((updateInterest (s.positions id) now).loanAmount +
            (updateInterest (s.positions id) now).accumulatedInterest) ∧
      (s2.positions id).loanAmount = 0 ∧
      (s2.positions id).accumulatedInterest = 0 ∧
      (s2.positions id).lastInterestUpdate = 0 ∧
      (s2.positions id).collateralAmount = (s.positions id).collateralAmount) := by
  constructor
  · intro h; simp [repay, h]
  · intro s2 h
    unfold repay at h
    dsimp only at h
    split at h
    · exact absurd h (by simp)
    · split at h
      · exact absurd h (by simp)
      · rename_i hloan htransfer
        injection h with h2
        subst h2
        have hcoll : (updateInterest (s.positions id) now).collateralAmount =
            (s.positions id).collateralAmount := by
          unfold updateInterest
          split
          · dsimp only
            split <;> rfl
          · rfl
        simp only [Function.update_same]
        refine ⟨by omega, trivial, trivial, trivial, trivial, hcoll⟩

/-- A state for exercising `repay`: an active loan of 1000 with 50 accrued
interest, the participant holding 2000 loan tokens. -/
def repayState : LedgerState :=
  { positions := fun _ => UserPosition.mk 1500 1000 0 50
    loanReserve := 0
    collateralReserve := 1500
    userLoan := fun _ => 2000
    userCollateral := fun _ => 0 }

/-- Witness for C4: repaying the 1050 total debt. -/
theorem c4_repay_spec_witness :
    ({ repayState with
        positions := Function.update repayState.positions 0 (UserPosition.mk 1500 0 0 0)
        loanReserve := 1050
        userLoan := Function.update repayState.userLoan 0 950 } : LedgerState).userLoan 0 +
        ((updateInterest (repayState.positions 0) 5).loanAmount +
          (updateInterest (repayState.positions 0) 5).accumulatedInterest) = repayState.userLoan 0 ∧
    ({ repayState with
        positions := Function.update repayState.positions 0 (UserPosition.mk 1500 0 0 0)
        loanReserve := 1050
        userLoan := Function.update repayState.userLoan 0 950 } : LedgerState).loanReserve =
        repayState.loanReserve +
        ((updateInterest (repayState.positions 0) 5).loanAmount +
          (updateInterest (repayState.positions 0) 5).accumulatedInterest) ∧
    (({ repayState with
        positions := Function.update repayState.positions 0 (UserPosition.mk 1500 0 0 0)
        loanReserve := 1050
        userLoan := Function.update repayState.userLoan 0 950 } : LedgerState).positions 0).loanAmount = 0 ∧
    (({ repayState with
        positions := Function.update repayState.positions 0 (UserPosition.mk 1500 0 0 0)
        loanReserve := 1050
        userLoan := Function.update repayState.userLoan 0 950 } : LedgerState).positions 0).accumulatedInterest = 0 ∧
    (({ repayState with
        positions := Function.update repayState.positions 0 (UserPosition.mk 1500 0 0 0)
        loanReserve := 1050
        userLoan := Function.update repayState.userLoan 0 950 } : LedgerState).positions 0).lastInterestUpdate = 0 ∧
    (({ repayState with
        positions := Function.update repayState.positions 0 (UserPosition.mk 1500 0 0 0)
        loanReserve := 1050
        userLoan := Function.update repayState.userLoan 0 950 } : LedgerState).positions 0).collateralAmount =
      (repayState.positions 0).collateralAmount :=
  (c4_repay_spec repayState 0 5).2 _ rfl

/-! ### Claim C5: failed operations are atomic -/

/-- C5: Solidity `require` reverts the whole call, which `runOp` models by
keeping the pre-state whenever `step` reports an error: for every state and
every one of the four operations, a failure leaves every position and both
reserves exactly as before the call — in particular the accrual that
`withdrawCollateral` performs before its failing `activeDebt` check is
rolled back with the rest. -/
theorem c5_failed_ops_leave_state_unchanged (s : LedgerState) (op : Op) (now : Nat)
    (e : LendingError) (h : step s op now = .error e) : runOp s op now = s := by
  unfold runOp
  rw [h]

/-- Witness for C5: `withdrawCollateral` with an active loan one week old
fails (with `activeDebt`) and the run leaves the state untouched, stored
interest and accrual clock included. -/
theorem c5_failed_ops_leave_state_unchanged_witness :
    runOp { positions := fun _ => UserPosition.mk 1500 1000 1 0
            loanReserve := 0
            collateralReserve := 1500
            userLoan := fun _ => 0
            userCollateral := fun _ => 0 } (.withdrawCollateral 0) 604801 =
      { positions := fun _ => UserPosition.mk 1500 1000 1 0
        loanReserve := 0
        collateralReserve := 1500
        userLoan := fun _ => 0
        userCollateral := fun _ => 0 } :=
  c5_failed_ops_leave_state_unchanged _ (.withdrawCollateral 0) 604801 .activeDebt rfl

/-! ### Claim C6: positions with no principal carry no interest and no clock -/

/-- Accrual never changes the outstanding principal. -/
theorem updateInterest_loanAmount (p : UserPosition) (now : Nat) :
    (updateInterest p now).loanAmount = p.loanAmount := by
  unfold updateInterest
  split
  · dsimp only
    split <;> rfl
  · rfl

/-- A successful operation preserves the empty-debt invariant. -/
theorem positionInv_step {s : LedgerState} (hs : PositionInv s) (op : Op) (now : Nat)
    (t : LedgerState) (hstep : step s op now = .ok t) : PositionInv t := by
  cases op with
  | deposit id amt =>
    simp only [step] at hstep
    unfold depositCollateral at hstep
    dsimp only at hstep
    split at hstep
    · exact absurd hstep (by simp)
    split at hstep
    · exact absurd hstep (by simp)
    injection hstep with ht
    subst ht
    intro j hj
    by_cases hij : j = id
    · subst hij
      simp only [Function.update_same] at hj ⊢
      exact hs j hj
    · simp only [Function.update_noteq hij] at hj ⊢
      exact hs j hj
  | borrow id amt =>
    simp only [step] at hstep
    unfold borrow at hstep
    dsimp only at hstep
    split at hstep
    · exact absurd hstep (by simp)
    rename_i hamt
    split at hstep
    · exact absurd hstep (by simp)
    split at hstep
    · exact absurd hstep (by simp)
    split at hstep
    · exact absurd hstep (by simp)
    injection hstep with ht
    subst ht
    intro j hj
    by_cases hij : j = id
    · subst hij
      simp only [Function.update_same] at hj ⊢
      exact absurd hj (by omega)
    · simp only [Function.update_noteq hij] at hj ⊢
      exact hs j hj
  | repay id =>
    simp only [step] at hstep
    unfold repay at hstep
    dsimp only at hstep
    split at hstep
    · exact absurd hstep (by simp)
    split at hstep
    · exact absurd hstep (by simp)
    injection hstep with ht
    subst ht
    intro j hj
    by_cases hij : j = id
    · subst hij
      simp only [Function.update_same] at hj ⊢
      exact ⟨trivial, trivial⟩
    · simp only [Function.update_noteq hij] at hj ⊢
      exact hs j hj
  | withdrawCollateral id =>
    simp only [step] at hstep
    unfold withdrawCollateral at hstep
    dsimp only at hstep
    split at hstep
    · exact absurd hstep (by simp)
    rename_i hcoll0
    by_cases hl : (s.positions id).loanAmount > 0
    · rw [if_pos hl] at hstep
      split at hstep
      · exact absurd hstep (by simp)
      rename_i hdebt
      split at hstep
      · exact absurd hstep (by simp)
      exfalso
      have hui := updateInterest_loanAmount (s.positions id) now
      omega
    · rw [if_neg hl] at hstep
      split at hstep
      · exact absurd hstep (by simp)
      rename_i hdebt
      split at hstep
      · exact absurd hstep (by simp)
      injection hstep with ht
      subst ht
      intro j hj
      by_cases hij : j = id
      · subst hij
        simp only [Function.update_same] at hj ⊢
        exact hs _ (by omega)
      · simp only [Function.update_noteq hij] at hj ⊢
        exact hs j hj

/-- Lemma: `runOp` preserves the empty-debt invariant, failures included. -/
theorem positionInv_runOp {s : LedgerState} (hs : PositionInv s) (op : Op) (now : Nat) :
    PositionInv (runOp s op now) := by
  unfold runOp
  cases hstep : step s op now with
  | error e => exact hs
  | ok t => exact positionInv_step hs op now t hstep

/-- C6: in every state reachable from an all-zero-positions genesis by the
four operations at non-decreasing times, a position with zero principal has
zero accrued interest and an unset (zero) accrual clock. -/
theorem c6_reachable_empty_debt_invariant (s : LedgerState) (t : Nat)
    (h : Reachable s t) : PositionInv s := by
  induction h with
  | init r c ul uc => intro j hj; exact ⟨rfl, rfl⟩
  | next op now _ _ ih => exact positionInv_runOp ih op now

/-- Witness for C6 at a concrete genesis state. -/
theorem c6_reachable_empty_debt_invariant_witness :
    PositionInv ⟨fun _ => zeroPosition, 5, 7, fun _ => 9, fun _ => 11⟩ :=
  c6_reachable_empty_debt_invariant _ 0 (.init 5 7 (fun _ => 9) (fun _ => 11))

/-! ### Claim C8: deposit-then-withdraw round trip (corrected) -/

/-- A state for refuting the round-trip claim: 100 collateral already posted,
no debt, plenty of participant collateral tokens. -/
def c8State : LedgerState :=
  { positions := fun _ => UserPosition.mk 100 0 0 0
    loanReserve := 0
    collateralReserve := 100
    userLoan := fun _ => 0
    userCollateral := fun _ => 1000 }

/-- C8 counterexample: on the zero-debt position holding 100 collateral,
deposit(50) followed by a successful `withdrawCollateral` leaves the position
with 0 collateral, not the pre-deposit 100 — the withdrawal always removes
the entire collateral, not only the deposited amount. -/
theorem c8_roundtrip_counterexample :
    (c8State.positions 0).loanAmount = 0 ∧
    (c8State.positions 0).accumulatedInterest = 0 ∧
    (50 : Nat) ≠ 0 ∧
    (step c8State (.deposit 0 50) 0).isOk = true ∧
    (step (runOp c8State (.deposit 0 50) 0) (.withdrawCollateral 0) 0).isOk = true ∧
    ((runOp (runOp c8State (.deposit 0 50) 0) (.withdrawCollateral 0) 0).positions 0).collateralAmount = 0 ∧
    (c8State.positions 0).collateralAmount = 100 := by
  refine ⟨rfl, rfl, by decide, rfl, rfl, rfl, rfl⟩

/-- C8 (amended): deposit(X) then a successful `withdrawCollateral` on a
zero-debt position always leaves `collateral = 0`, because the withdrawal
removes the entire collateral; this equals the pre-deposit value exactly
when the pre-deposit collateral was zero. -/
theorem c8_roundtrip_amended (s : LedgerState) (id X now2 : Nat)
    (s1 s2 : LedgerState)
    (_hdep : depositCollateral s id X = .ok s1)
    (hwd : withdrawCollateral s1 id now2 = .ok s2) :
    (s2.positions id).collateralAmount = 0 ∧
    ((s.positions id).collateralAmount = 0 →
      (s2.positions id).collateralAmount = (s.positions id).collateralAmount) := by
  have h0 : (s2.positions id).collateralAmount = 0 := by
    unfold withdrawCollateral at hwd
    dsimp only at hwd
    split at hwd
    · exact absurd hwd (by simp)
    by_cases hl : (s1.positions id).loanAmount > 0
    · rw [if_pos hl] at hwd
      split at hwd
      · exact absurd hwd (by simp)
      split at hwd
      · exact absurd hwd (by simp)
      injection hwd with ht
      subst ht
      simp only [Function.update_same]
    · rw [if_neg hl] at hwd
      split at hwd
      · exact absurd hwd (by simp)
      split at hwd
      · exact absurd hwd (by simp)
      injection hwd with ht
      subst ht
      simp only [Function.update_same]
  exact ⟨h0, fun hc => by rw [h0, hc]⟩

/-- A zero-collateral state for the amended round trip. -/
def c8WState : LedgerState :=
  { positions := fun _ => zeroPosition
    loanReserve := 0
    collateralReserve := 0
    userLoan := fun _ => 0
    userCollateral := fun _ => 100 }

/-- Witness for C8 (amended): a deposit of 60 into an empty position followed
by a successful withdrawal restores the zero collateral. -/
theorem c8_roundtrip_amended_witness :
    ((runOp (runOp c8WState (.deposit 0 60) 0) (.withdrawCollateral 0) 0).positions 0).collateralAmount = 0 ∧
    ((runOp (runOp c8WState (.deposit 0 60) 0) (.withdrawCollateral 0) 0).positions 0).collateralAmount =
      (c8WState.positions 0).collateralAmount :=
  ⟨(c8_roundtrip_amended c8WState 0 60 0 _ _ rfl rfl).1,
    (c8_roundtrip_amended c8WState 0 60 0 _ _ rfl rfl).2 rfl⟩

/-! ### Claim C9: `fundContract` and `withdrawExcess` touch only the loan reserve -/

/-- C9: `fundContract` and `withdrawExcess` leave every position, the
collateral-token pool and every participant collateral balance unchanged,
moving only loan tokens; `withdrawExcess` checks nothing but the loan-token
balance itself, so it succeeds exactly when the amount is at most the entire
loan reserve, regardless of outstanding loans. -/
theorem c9_fund_withdrawExcess_frame (s : LedgerState) (sender amt : Nat) :
    (∀ s2, fundContract s sender amt = .ok s2 →
      s2.positions = s.positions ∧ s2.collateralReserve = s.collateralReserve ∧
      s2.userCollateral = s.userCollateral ∧ s2.loanReserve = s.loanReserve + amt) ∧
    (∀ s2, withdrawExcess s sender amt = .ok s2 →
      s2.positions = s.positions ∧ s2.collateralReserve = s.collateralReserve ∧
      s2.userCollateral = s.userCollateral ∧ s2.loanReserve = s.loanReserve - amt) ∧
    (amt ≤ s.loanReserve →
      withdrawExcess s sender amt = .ok
        { s with
          loanReserve := s.loanReserve - amt
          userLoan := Function.update s.userLoan sender (s.userLoan sender + amt) }) ∧
    (s.loanReserve < amt → withdrawExcess s sender amt = .error .transferFailed) := by
  refine ⟨?_, ?_, ?_, ?_⟩
  · intro s2 h
    unfold fundContract at h
    split at h
    · exact absurd h (by simp)
    injection h with ht
    subst ht
    exact ⟨rfl, rfl, rfl, rfl⟩
  · intro s2 h
    unfold withdrawExcess at h
    split at h
    · exact absurd h (by simp)
    injection h with ht
    subst ht
    exact ⟨rfl, rfl, rfl, rfl⟩
  · intro h
    unfold withdrawExcess
    rw [if_neg (by omega)]
  · intro h
    unfold withdrawExcess
    rw [if_pos h]

/-- A state with an outstanding loan for exercising `withdrawExcess`. -/
def c9State : LedgerState :=
  { positions := fun _ => UserPosition.mk 1500 1000 1 50
    loanReserve := 10
    collateralReserve := 1500
    userLoan := fun _ => 0
    userCollateral := fun _ => 0 }

/-- The state after withdrawing the whole 10-token reserve of `c9State`. -/
def c9Post : LedgerState :=
  { c9State with
    loanReserve := c9State.loanReserve - 10
    userLoan := Function.update c9State.userLoan 7 (c9State.userLoan 7 + 10) }

/-- Witness for C9: withdrawing the whole 10-token reserve while a 1000-token
loan is outstanding succeeds and leaves positions and collateral untouched. -/
theorem c9_fund_withdrawExcess_frame_witness :
    withdrawExcess c9State 7 10 = .ok c9Post ∧
    c9Post.positions = c9State.positions ∧ c9Post.collateralReserve = c9State.collateralReserve ∧
    c9Post.userCollateral = c9State.userCollateral ∧ c9Post.loanReserve = c9State.loanReserve - 10 :=
  ⟨(c9_fund_withdrawExcess_frame c9State 7 10).2.2.1 (by decide),
    (c9_fund_withdrawExcess_frame c9State 7 10).2.1 c9Post
      ((c9_fund_withdrawExcess_frame c9State 7 10).2.2.1 (by decide))⟩

end LendingProtocol
